import Mathlib

/-!
Shallow embedding of `services/surfaceflinger/Scheduler/VsyncModulator.cpp`
(the Vsync Configuration Modulator) and proofs about it.

The modulator's state lives in the `VsyncModulator` class; each C++ member
function becomes a Lean function from the explicit state (plus the injected
clock value, `mNow()`) to the new state together with its return value.
Machine `int` counters are modelled as `Int`; binder tokens (`sp<IBinder>`)
are opaque identities, modelled as `Nat`; the pending early-wakeup set
(`std::unordered_set` keyed by binder identity) is a `Finset Nat`.
-/

namespace VsyncModulator

/-- The scheduler's `TransactionSchedule` enumeration: `Late` is the default. -/
inductive TransactionSchedule where
  | Late
  | EarlyStart
  | EarlyEnd
deriving DecidableEq

/-- The three-way classification result `VsyncConfigType`. -/
inductive VsyncConfigType where
  | Early
  | EarlyGpu
  | Late
deriving DecidableEq

/-- Opaque binder-token identity (`sp<IBinder>` compared by identity). -/
abbrev Token := Nat

/-- Modelled from the spec: `VsyncConfig` (an offset profile) is an opaque,
caller-defined value with value semantics; its fields live in the header
`VsyncModulator.h`, which is not part of the sources under study. An opaque
comparable value suffices for every property below. -/
abbrev VsyncConfig := Nat

/-- The three named offset profiles of a `VsyncConfigSet`. -/
structure VsyncConfigSet where
  early : VsyncConfig
  earlyGpu : VsyncConfig
  late : VsyncConfig
deriving DecidableEq

/-- Constant `MIN_EARLY_TRANSACTION_TIME = 1ms`, in nanoseconds
(from `VsyncModulator.cpp`, line 35). -/
def MIN_EARLY_TRANSACTION_TIME : Int := 1000000

/-- Modelled from the spec: `MIN_EARLY_TRANSACTION_FRAMES`, the fixed
minimum grace-window length in frames, declared in the missing header.
The spec calls it "a fixed minimum window length" granting "a short grace
window of early timing", so it is a positive constant; the concrete value 2
is immaterial to every property except that it is positive. -/
def MIN_EARLY_TRANSACTION_FRAMES : Int := 2

/-- Modelled from the spec: `MIN_EARLY_GPU_FRAMES`, the fixed maximum of the
GPU decay counter, declared in the missing header; a positive constant. -/
def MIN_EARLY_GPU_FRAMES : Int := 2

/-- The mutable fields of the `VsyncModulator` object. Timestamps are
nanosecond values of the injected monotonic clock. -/
structure State where
  vsyncConfigSet : VsyncConfigSet
  vsyncConfig : VsyncConfig
  earlyWakeupRequests : Finset Token
  transactionSchedule : TransactionSchedule
  earlyTransactionFrames : Int
  earlyGpuFrames : Int
  earlyTransactionStartTime : Int
  lastTransactionCommitTime : Int
  refreshRateChangePending : Bool
deriving DecidableEq

/-- Modelled from the spec: the constructor stores the given config set and
clock; every other field takes its header default (the header is not in the
sources under study). Per the spec the initial state is empty/idle: empty
pending set, stored schedule `Late`, zero decay counters, flag clear, and
default (zero) timestamps. `c0` is the default-constructed initial value of
`mVsyncConfig` before any reclassification. -/
def initState (config : VsyncConfigSet) (c0 : VsyncConfig) : State where
  vsyncConfigSet := config
  vsyncConfig := c0
  earlyWakeupRequests := ∅
  transactionSchedule := .Late
  earlyTransactionFrames := 0
  earlyGpuFrames := 0
  earlyTransactionStartTime := 0
  lastTransactionCommitTime := 0
  refreshRateChangePending := false

/-- Embeds `VsyncModulator::getNextVsyncConfigType` (lines 131-142): the
classification cascade. -/
def getNextVsyncConfigType (s : State) : VsyncConfigType :=
  if ¬s.earlyWakeupRequests = ∅ ∨ s.transactionSchedule = .EarlyEnd ∨
      s.earlyTransactionFrames > 0 ∨ s.refreshRateChangePending then
    .Early
  else if s.earlyGpuFrames > 0 then
    .EarlyGpu
  else
    .Late

/-- Embeds `VsyncModulator::getNextVsyncConfig` (lines 144-153): look the
classification up in the stored config set. -/
def getNextVsyncConfig (s : State) : VsyncConfig :=
  match getNextVsyncConfigType s with
  | .Early => s.vsyncConfigSet.early
  | .EarlyGpu => s.vsyncConfigSet.earlyGpu
  | .Late => s.vsyncConfigSet.late

/-- Embeds `VsyncModulator::updateVsyncConfigLocked` (lines 160-180): store
the freshly classified config and return it (tracing is a side effect with
no state). -/
def updateVsyncConfigLocked (s : State) : State × VsyncConfig :=
  let offsets := getNextVsyncConfig s
  ({ s with vsyncConfig := offsets }, offsets)

/-- Embeds `VsyncModulator::setVsyncConfigSet` (lines 40-44). -/
def setVsyncConfigSet (s : State) (config : VsyncConfigSet) : State × VsyncConfig :=
  updateVsyncConfigLocked { s with vsyncConfigSet := config }

/-- Phase 1 of `setTransactionSchedule`: the `switch (schedule)` on lines
50-69. `EarlyStart` with a token inserts it (`emplace`); `EarlyEnd` with a
token erases it (the erase of an absent token leaves the set as is, and only
gates the external `unlinkToDeath` call); a null token or `Late` leaves the
set untouched. -/
def stsUpdateRequests (s : State) (schedule : TransactionSchedule)
    (token : Option Token) : State :=
  match schedule, token with
  | .EarlyStart, some t =>
      { s with earlyWakeupRequests := insert t s.earlyWakeupRequests }
  | .EarlyStart, none => s
  | .EarlyEnd, some t =>
      { s with earlyWakeupRequests := s.earlyWakeupRequests.erase t }
  | .EarlyEnd, none => s
  | .Late, _ => s

/-- Phase 2 of `setTransactionSchedule`: the grace-window reset on lines
72-75, evaluated on the set's state after phase 1. -/
def stsGraceWindow (s : State) (schedule : TransactionSchedule)
    (now : Int) : State :=
  if s.earlyWakeupRequests = ∅ ∧ schedule = .EarlyEnd then
    { s with earlyTransactionFrames := MIN_EARLY_TRANSACTION_FRAMES,
             earlyTransactionStartTime := now }
  else s

/-- Embeds `VsyncModulator::setTransactionSchedule` (lines 47-83). `token`
is the optional binder token (`sp<IBinder>` may be null); `now` is the value
`mNow()` would return during the call. `linkToDeath`/`unlinkToDeath` are
external calls on the token and touch no modulator state. -/
def setTransactionSchedule (s : State) (schedule : TransactionSchedule)
    (token : Option Token) (now : Int) : State × Option VsyncConfig :=
  let s2 : State := stsGraceWindow (stsUpdateRequests s schedule token) schedule now
  if schedule = s2.transactionSchedule ∨ s2.transactionSchedule = .EarlyEnd then
    (s2, none)
  else
    let r := updateVsyncConfigLocked { s2 with transactionSchedule := schedule }
    (r.1, some r.2)

/-- Embeds `VsyncModulator::onTransactionCommit` (lines 85-90). -/
def onTransactionCommit (s : State) (now : Int) : State × Option VsyncConfig :=
  let s1 : State := { s with lastTransactionCommitTime := now }
  if s1.transactionSchedule = .Late then (s1, none)
  else
    let r := updateVsyncConfigLocked { s1 with transactionSchedule := .Late }
    (r.1, some r.2)

/-- Embeds `VsyncModulator::onRefreshRateChangeInitiated` (lines 92-96). -/
def onRefreshRateChangeInitiated (s : State) : State × Option VsyncConfig :=
  if s.refreshRateChangePending then (s, none)
  else
    let r := updateVsyncConfigLocked { s with refreshRateChangePending := true }
    (r.1, some r.2)

/-- Embeds `VsyncModulator::onRefreshRateChangeCompleted` (lines 98-102). -/
def onRefreshRateChangeCompleted (s : State) : State × Option VsyncConfig :=
  if ¬s.refreshRateChangePending then (s, none)
  else
    let r := updateVsyncConfigLocked { s with refreshRateChangePending := false }
    (r.1, some r.2)

/-- Step 1 of `onDisplayRefresh` (lines 107-113): decrement the transaction
decay counter when the last commit is at least `MIN_EARLY_TRANSACTION_TIME`
after the grace-window start; the `Bool` is the `updateOffsetsNeeded`
contribution. -/
def odrTransactionStep (s : State) : State × Bool :=
  if s.earlyTransactionStartTime + MIN_EARLY_TRANSACTION_TIME ≤
      s.lastTransactionCommitTime ∧ s.earlyTransactionFrames > 0 then
    ({ s with earlyTransactionFrames := s.earlyTransactionFrames - 1 }, true)
  else (s, false)

/-- Step 2 of `onDisplayRefresh` (lines 114-120): reset the GPU decay
counter on a GPU-composited frame, else decrement it when positive. -/
def odrGpuStep (s : State) (usedGpuComposition : Bool) : State × Bool :=
  if usedGpuComposition then
    ({ s with earlyGpuFrames := MIN_EARLY_GPU_FRAMES }, true)
  else if s.earlyGpuFrames > 0 then
    ({ s with earlyGpuFrames := s.earlyGpuFrames - 1 }, true)
  else (s, false)

/-- Embeds `VsyncModulator::onDisplayRefresh` (lines 104-124). -/
def onDisplayRefresh (s : State) (usedGpuComposition : Bool) :
    State × Option VsyncConfig :=
  let p1 := odrTransactionStep s
  let p2 := odrGpuStep p1.1 usedGpuComposition
  if p1.2 ∨ p2.2 then
    let r := updateVsyncConfigLocked p2.1
    (r.1, some r.2)
  else (p2.1, none)

/-- Embeds `VsyncModulator::getVsyncConfig` (lines 126-129): snapshot read
of the last stored config. -/
def getVsyncConfig (s : State) : VsyncConfig := s.vsyncConfig

/-- Embeds `VsyncModulator::binderDied` (lines 181-185): the liveness-lost
callback. -/
def binderDied (s : State) (who : Token) : State :=
  (updateVsyncConfigLocked
    { s with earlyWakeupRequests := s.earlyWakeupRequests.erase who }).1

/-- Embeds `VsyncModulator::isVsyncConfigEarly` (lines 187-190). -/
def isVsyncConfigEarly (s : State) : Bool :=
  getNextVsyncConfigType s ≠ .Late

/-- One call into the modulator, for reasoning about call sequences. -/
inductive Op where
  | setVsyncConfigSet (config : VsyncConfigSet)
  | setTransactionSchedule (schedule : TransactionSchedule)
      (token : Option Token) (now : Int)
  | onTransactionCommit (now : Int)
  | onRefreshRateChangeInitiated
  | onRefreshRateChangeCompleted
  | onDisplayRefresh (usedGpuComposition : Bool)
  | binderDied (who : Token)

/-- The state effect of one call. -/
def applyOp (s : State) : Op → State
  | .setVsyncConfigSet config => (setVsyncConfigSet s config).1
  | .setTransactionSchedule schedule token now =>
      (setTransactionSchedule s schedule token now).1
  | .onTransactionCommit now => (onTransactionCommit s now).1
  | .onRefreshRateChangeInitiated => (onRefreshRateChangeInitiated s).1
  | .onRefreshRateChangeCompleted => (onRefreshRateChangeCompleted s).1
  | .onDisplayRefresh b => (onDisplayRefresh s b).1
  | .binderDied who => binderDied s who

/-- Run a sequence of calls. -/
def run (s : State) (ops : List Op) : State := ops.foldl applyOp s

/-- A state is reachable when some call sequence produces it from a freshly
constructed modulator. -/
def Reachable (s : State) : Prop :=
  ∃ config c0 ops, run (initState config c0) ops = s

/-! ### Lock discipline, transcribed from the source

To settle the claim about which mutations happen while the single mutex is
held, each member function's body is transcribed as the sequence of its
lock operations and member-field writes, in source order. `lock_guard`
acquires at its declaration and releases at the end of the scope;
`updateVsyncConfig` (lines 155-158) acquires the lock around
`updateVsyncConfigLocked`, which writes `mVsyncConfig`. -/

/-- The mutable member fields of `VsyncModulator`. -/
inductive Field where
  | vsyncConfigSet
  | vsyncConfig
  | earlyWakeupRequests
  | transactionSchedule
  | earlyTransactionFrames
  | earlyGpuFrames
  | earlyTransactionStartTime
  | lastTransactionCommitTime
  | refreshRateChangePending
deriving DecidableEq

/-- The two timestamp fields, which the spec exempts from the lock. -/
def Field.isTimestamp : Field → Bool
  | .earlyTransactionStartTime => true
  | .lastTransactionCommitTime => true
  | _ => false

/-- A primitive event of a member function's body: acquiring or releasing
the mutex, or writing one member field. -/
inductive Event where
  | acquire
  | release
  | write (f : Field)
deriving DecidableEq

/-- Fields written while the mutex is not held (`d` is the current lock
depth). -/
def writesOutsideLock : List Event → Nat → List Field
  | [], _ => []
  | .acquire :: es, d => writesOutsideLock es (d + 1)
  | .release :: es, d => writesOutsideLock es (d - 1)
  | .write f :: es, d =>
      (if d = 0 then [f] else []) ++ writesOutsideLock es d

/-- Event trace of `setVsyncConfigSet` (lines 40-44): `lock_guard`, then the
config-set write and the `updateVsyncConfigLocked` write of `mVsyncConfig`,
all before the guard releases. -/
def setVsyncConfigSetTrace : List Event :=
  [.acquire, .write .vsyncConfigSet, .write .vsyncConfig, .release]

/-- Event trace of `setTransactionSchedule` (lines 47-83) on its
fullest-writing path (an `EarlyEnd` that empties the set and is not sticky):
the `lock_guard` on line 49 covers the set update, the grace-window writes,
the schedule write and the config write. -/
def setTransactionScheduleTrace : List Event :=
  [.acquire, .write .earlyWakeupRequests, .write .earlyTransactionFrames,
   .write .earlyTransactionStartTime, .write .transactionSchedule,
   .write .vsyncConfig, .release]

/-- Event trace of `onTransactionCommit` (lines 85-90) on its non-`Late`
path: the timestamp and schedule writes happen with no `lock_guard` in
scope; only `updateVsyncConfig` then takes the lock to write the config. -/
def onTransactionCommitTrace : List Event :=
  [.write .lastTransactionCommitTime, .write .transactionSchedule,
   .acquire, .write .vsyncConfig, .release]

/-- Event trace of `onRefreshRateChangeInitiated` (lines 92-96) on its
non-pending path: the flag write precedes the locked config update. -/
def onRefreshRateChangeInitiatedTrace : List Event :=
  [.write .refreshRateChangePending, .acquire, .write .vsyncConfig, .release]

/-- Event trace of `onRefreshRateChangeCompleted` (lines 98-102) on its
pending path: the flag write precedes the locked config update. -/
def onRefreshRateChangeCompletedTrace : List Event :=
  [.write .refreshRateChangePending, .acquire, .write .vsyncConfig, .release]

/-- Event trace of `onDisplayRefresh` (lines 104-124) on the path where both
counters change: the counter writes happen with no lock held; only
`updateVsyncConfig` then takes the lock to write the config. -/
def onDisplayRefreshTrace : List Event :=
  [.write .earlyTransactionFrames, .write .earlyGpuFrames,
   .acquire, .write .vsyncConfig, .release]

/-- Event trace of `binderDied` (lines 181-185): the `lock_guard` covers the
set erase and the config write. -/
def binderDiedTrace : List Event :=
  [.acquire, .write .earlyWakeupRequests, .write .vsyncConfig, .release]

/-! ### Concrete example states used by scenario claims -/

/-- A config set whose three profiles are pairwise distinct. -/
def exCfg : VsyncConfigSet := ⟨10, 20, 30⟩

/-- A freshly constructed modulator over `exCfg`. -/
def exInit : State := initState exCfg 0

/-- Scenario A, step 1: `setTransactionSchedule(EarlyStart, tokenA)` at
time 0 (token `0` stands for tokenA). -/
def exA1 : State := (setTransactionSchedule exInit .EarlyStart (some 0) 0).1

/-- Scenario A, step 2: `setTransactionSchedule(EarlyEnd, tokenA)` at
time 0. -/
def exA2 : State := (setTransactionSchedule exA1 .EarlyEnd (some 0) 0).1

/-- Scenario A, step 3: `onTransactionCommit()` at time 2ms, well past the
grace-window start plus `MIN_EARLY_TRANSACTION_TIME`. -/
def exA3 : State := (onTransactionCommit exA2 2000000).1

/-- Scenario A, continued: a first `onDisplayRefresh(false)`. -/
def exA4 : State := (onDisplayRefresh exA3 false).1

/-- Scenario A, continued: a second `onDisplayRefresh(false)`. -/
def exA5 : State := (onDisplayRefresh exA4 false).1

/-- A token-less `EarlyStart` from the initial state, which leaves the
pending set empty but still rewrites the stored schedule. -/
def exStartNoToken : State := (setTransactionSchedule exInit .EarlyStart none 0).1

/-- An `EarlyStart` with token `0` while the stored schedule is already
`EarlyStart`: the sticky branch returns no change and skips the config
recomputation. -/
def exStartStale : State :=
  (setTransactionSchedule exStartNoToken .EarlyStart (some 0) 1).1

/-- A commit from the initial state (stored schedule already `Late`). -/
def exCommit1 : State := (onTransactionCommit exInit 0).1

/-- An `EarlyStart` with token `3` between two commits. -/
def exCommitMid : State :=
  (setTransactionSchedule exCommit1 .EarlyStart (some 3) 1).1

/-! ### Basic lemmas about the embedded operations -/

theorem stsUpdateRequests_transactionSchedule (s : State)
    (sched : TransactionSchedule) (tok : Option Token) :
    (stsUpdateRequests s sched tok).transactionSchedule =
      s.transactionSchedule := by
  cases sched <;> cases tok <;> rfl

theorem stsUpdateRequests_earlyTransactionFrames (s : State)
    (sched : TransactionSchedule) (tok : Option Token) :
    (stsUpdateRequests s sched tok).earlyTransactionFrames =
      s.earlyTransactionFrames := by
  cases sched <;> cases tok <;> rfl

theorem stsUpdateRequests_earlyTransactionStartTime (s : State)
    (sched : TransactionSchedule) (tok : Option Token) :
    (stsUpdateRequests s sched tok).earlyTransactionStartTime =
      s.earlyTransactionStartTime := by
  cases sched <;> cases tok <;> rfl

theorem stsUpdateRequests_earlyGpuFrames (s : State)
    (sched : TransactionSchedule) (tok : Option Token) :
    (stsUpdateRequests s sched tok).earlyGpuFrames = s.earlyGpuFrames := by
  cases sched <;> cases tok <;> rfl

theorem stsUpdateRequests_refreshRateChangePending (s : State)
    (sched : TransactionSchedule) (tok : Option Token) :
    (stsUpdateRequests s sched tok).refreshRateChangePending =
      s.refreshRateChangePending := by
  cases sched <;> cases tok <;> rfl

theorem stsGraceWindow_transactionSchedule (s : State)
    (sched : TransactionSchedule) (now : Int) :
    (stsGraceWindow s sched now).transactionSchedule =
      s.transactionSchedule := by
  unfold stsGraceWindow; split <;> rfl

theorem stsGraceWindow_earlyWakeupRequests (s : State)
    (sched : TransactionSchedule) (now : Int) :
    (stsGraceWindow s sched now).earlyWakeupRequests =
      s.earlyWakeupRequests := by
  unfold stsGraceWindow; split <;> rfl

theorem stsGraceWindow_earlyGpuFrames (s : State)
    (sched : TransactionSchedule) (now : Int) :
    (stsGraceWindow s sched now).earlyGpuFrames = s.earlyGpuFrames := by
  unfold stsGraceWindow; split <;> rfl

theorem stsGraceWindow_refreshRateChangePending (s : State)
    (sched : TransactionSchedule) (now : Int) :
    (stsGraceWindow s sched now).refreshRateChangePending =
      s.refreshRateChangePending := by
  unfold stsGraceWindow; split <;> rfl

theorem updateVsyncConfigLocked_fst (s : State) :
    (updateVsyncConfigLocked s).1 =
      { s with vsyncConfig := getNextVsyncConfig s } := rfl

theorem updateVsyncConfigLocked_snd (s : State) :
    (updateVsyncConfigLocked s).2 = getNextVsyncConfig s := rfl

/-- The classification reads only the pending set, the stored schedule, the
transaction decay counter, the refresh-rate flag and the GPU decay
counter. -/
theorem getNextVsyncConfigType_congr {a b : State}
    (h1 : a.earlyWakeupRequests = b.earlyWakeupRequests)
    (h2 : a.transactionSchedule = b.transactionSchedule)
    (h3 : a.earlyTransactionFrames = b.earlyTransactionFrames)
    (h4 : a.refreshRateChangePending = b.refreshRateChangePending)
    (h5 : a.earlyGpuFrames = b.earlyGpuFrames) :
    getNextVsyncConfigType a = getNextVsyncConfigType b := by
  unfold getNextVsyncConfigType
  rw [h1, h2, h3, h4, h5]

theorem getNextVsyncConfigType_set_vsyncConfig (s : State) (c : VsyncConfig) :
    getNextVsyncConfigType { s with vsyncConfig := c } =
      getNextVsyncConfigType s :=
  getNextVsyncConfigType_congr rfl rfl rfl rfl rfl

theorem getNextVsyncConfig_set_vsyncConfig (s : State) (c : VsyncConfig) :
    getNextVsyncConfig { s with vsyncConfig := c } = getNextVsyncConfig s := by
  unfold getNextVsyncConfig
  rw [getNextVsyncConfigType_set_vsyncConfig]

/-- The condition of the sticky branch, rewritten to the pre-call state. -/
theorem sts_sticky_cond (s : State) (sched : TransactionSchedule)
    (tok : Option Token) (now : Int) :
    (sched = (stsGraceWindow (stsUpdateRequests s sched tok) sched
        now).transactionSchedule ∨
      (stsGraceWindow (stsUpdateRequests s sched tok) sched
        now).transactionSchedule = .EarlyEnd) ↔
    (sched = s.transactionSchedule ∨ s.transactionSchedule = .EarlyEnd) := by
  rw [stsGraceWindow_transactionSchedule, stsUpdateRequests_transactionSchedule]

/-- Behaviour of `setTransactionSchedule` when the sticky branch fires. -/
theorem setTransactionSchedule_sticky (s : State)
    (sched : TransactionSchedule) (tok : Option Token) (now : Int)
    (h : sched = s.transactionSchedule ∨ s.transactionSchedule = .EarlyEnd) :
    setTransactionSchedule s sched tok now =
      (stsGraceWindow (stsUpdateRequests s sched tok) sched now, none) := by
  unfold setTransactionSchedule
  rw [if_pos ((sts_sticky_cond s sched tok now).mpr h)]

/-- Behaviour of `setTransactionSchedule` when the sticky branch does not
fire. -/
theorem setTransactionSchedule_active (s : State)
    (sched : TransactionSchedule) (tok : Option Token) (now : Int)
    (h : ¬(sched = s.transactionSchedule ∨ s.transactionSchedule = .EarlyEnd)) :
    setTransactionSchedule s sched tok now =
      ((updateVsyncConfigLocked
          { stsGraceWindow (stsUpdateRequests s sched tok) sched now with
            transactionSchedule := sched }).1,
        some (updateVsyncConfigLocked
          { stsGraceWindow (stsUpdateRequests s sched tok) sched now with
            transactionSchedule := sched }).2) := by
  unfold setTransactionSchedule
  rw [if_neg (fun hc => h ((sts_sticky_cond s sched tok now).mp hc))]

/-- Once the stored schedule is `EarlyEnd`, no `setTransactionSchedule` call
changes it: the sticky branch always fires. -/
theorem sts_preserves_EarlyEnd (s : State) (sched : TransactionSchedule)
    (tok : Option Token) (now : Int)
    (h : s.transactionSchedule = .EarlyEnd) :
    (setTransactionSchedule s sched tok now).1.transactionSchedule =
      .EarlyEnd := by
  rw [setTransactionSchedule_sticky s sched tok now (Or.inr h)]
  rw [stsGraceWindow_transactionSchedule, stsUpdateRequests_transactionSchedule]
  exact h

/-- A stored `EarlyEnd` schedule always classifies as `Early`. -/
theorem classify_of_EarlyEnd (s : State)
    (h : s.transactionSchedule = .EarlyEnd) :
    getNextVsyncConfigType s = .Early := by
  unfold getNextVsyncConfigType
  rw [if_pos (Or.inr (Or.inl h))]

/-- One recorded `setTransactionSchedule` request: a schedule, an optional
token, and the clock value at the call. -/
structure StsCall where
  schedule : TransactionSchedule
  token : Option Token
  now : Int

/-- Run a sequence of `setTransactionSchedule` calls. -/
def runSts (s : State) (calls : List StsCall) : State :=
  calls.foldl (fun t c => (setTransactionSchedule t c.schedule c.token c.now).1) s

/-! ### Claim theorems -/

/-- C1: the classification is exactly the spec's priority cascade — `Early`
iff the pending set is non-empty, or the stored schedule is `EarlyEnd`, or
`earlyTransactionFrames > 0`, or `refreshRateChangePending`; otherwise
`EarlyGpu` iff `earlyGpuFrames > 0`; otherwise `Late`; and a non-empty
pending set forces `Early` regardless of the other fields. -/
theorem classification_priority_cascade :
    ∀ s : State,
      (getNextVsyncConfigType s = .Early ↔
        (¬s.earlyWakeupRequests = ∅ ∨ s.transactionSchedule = .EarlyEnd ∨
          s.earlyTransactionFrames > 0 ∨ s.refreshRateChangePending = true)) ∧
      (getNextVsyncConfigType s = .EarlyGpu ↔
        (¬(¬s.earlyWakeupRequests = ∅ ∨ s.transactionSchedule = .EarlyEnd ∨
            s.earlyTransactionFrames > 0 ∨ s.refreshRateChangePending = true) ∧
          s.earlyGpuFrames > 0)) ∧
      (getNextVsyncConfigType s = .Late ↔
        (¬(¬s.earlyWakeupRequests = ∅ ∨ s.transactionSchedule = .EarlyEnd ∨
            s.earlyTransactionFrames > 0 ∨ s.refreshRateChangePending = true) ∧
          ¬s.earlyGpuFrames > 0)) ∧
      (¬s.earlyWakeupRequests = ∅ → getNextVsyncConfigType s = .Early) := by
  intro s
  unfold getNextVsyncConfigType
  split_ifs with h1 h2 <;> simp_all

/-- Witness for C1 at a concrete state whose pending set is `{0}`. -/
theorem classification_priority_cascade_witness :
    getNextVsyncConfigType exA1 = .Early :=
  (classification_priority_cascade exA1).2.2.2 (by decide)

/-- C2: if the requested schedule equals the stored one or the stored one is
`EarlyEnd`, the stored schedule is unchanged and the call returns no
change; otherwise the stored schedule becomes the request and the freshly
reclassified profile is returned; consequently once the stored schedule is
`EarlyEnd`, no sequence of non-`EarlyEnd` requests (no intervening commit)
changes it or moves the classification away from `Early`. -/
theorem setTransactionSchedule_stickiness :
    (∀ (s : State) (sched : TransactionSchedule) (tok : Option Token)
        (now : Int),
        (sched = s.transactionSchedule ∨ s.transactionSchedule = .EarlyEnd) →
        (setTransactionSchedule s sched tok now).1.transactionSchedule =
          s.transactionSchedule ∧
        (setTransactionSchedule s sched tok now).2 = none) ∧
    (∀ (s : State) (sched : TransactionSchedule) (tok : Option Token)
        (now : Int),
        ¬(sched = s.transactionSchedule ∨ s.transactionSchedule = .EarlyEnd) →
        (setTransactionSchedule s sched tok now).1.transactionSchedule =
          sched ∧
        (setTransactionSchedule s sched tok now).2 =
          some ((setTransactionSchedule s sched tok now).1.vsyncConfig) ∧
        (setTransactionSchedule s sched tok now).1.vsyncConfig =
          getNextVsyncConfig ((setTransactionSchedule s sched tok now).1)) ∧
    (∀ (s : State) (calls : List StsCall),
        s.transactionSchedule = .EarlyEnd →
        (∀ c ∈ calls, c.schedule ≠ .EarlyEnd) →
        (runSts s calls).transactionSchedule = .EarlyEnd ∧
        getNextVsyncConfigType (runSts s calls) = .Early) := by
  refine ⟨?_, ?_, ?_⟩
  · intro s sched tok now h
    rw [setTransactionSchedule_sticky s sched tok now h]
    rw [stsGraceWindow_transactionSchedule, stsUpdateRequests_transactionSchedule]
    exact ⟨rfl, rfl⟩
  · intro s sched tok now h
    rw [setTransactionSchedule_active s sched tok now h]
    refine ⟨rfl, rfl, ?_⟩
    rw [updateVsyncConfigLocked_fst, getNextVsyncConfig_set_vsyncConfig]
  · intro s calls h hcalls
    induction calls generalizing s with
    | nil => exact ⟨h, classify_of_EarlyEnd s h⟩
    | cons c cs ih =>
        have hstep := sts_preserves_EarlyEnd s c.schedule c.token c.now h
        exact ih _ hstep (fun d hd => hcalls d (List.mem_cons_of_mem c hd))

/-- Witness for C2 at a concrete state with stored schedule `EarlyEnd` and a
concrete `Late` request followed by an `EarlyStart` request. -/
theorem setTransactionSchedule_stickiness_witness :
    (runSts exA2 [⟨.Late, none, 5⟩, ⟨.EarlyStart, some 7, 6⟩]).transactionSchedule =
      .EarlyEnd ∧
    getNextVsyncConfigType
      (runSts exA2 [⟨.Late, none, 5⟩, ⟨.EarlyStart, some 7, 6⟩]) = .Early :=
  setTransactionSchedule_stickiness.2.2 exA2
    [⟨.Late, none, 5⟩, ⟨.EarlyStart, some 7, 6⟩] (by decide) (by decide)

/-- The grace-window reset never fires for a request other than
`EarlyEnd`. -/
theorem stsGraceWindow_non_EarlyEnd (s : State) (sched : TransactionSchedule)
    (now : Int) (h : sched ≠ .EarlyEnd) :
    stsGraceWindow s sched now = s := by
  unfold stsGraceWindow
  rw [if_neg]
  rintro ⟨-, h2⟩
  exact h h2

/-- The pending set after `setTransactionSchedule` is exactly the set after
the `switch` phase, whichever branch the rest of the call takes. -/
theorem sts_earlyWakeupRequests (s : State) (sched : TransactionSchedule)
    (tok : Option Token) (now : Int) :
    (setTransactionSchedule s sched tok now).1.earlyWakeupRequests =
      (stsUpdateRequests s sched tok).earlyWakeupRequests := by
  by_cases h : sched = s.transactionSchedule ∨ s.transactionSchedule = .EarlyEnd
  · rw [setTransactionSchedule_sticky s sched tok now h]
    exact stsGraceWindow_earlyWakeupRequests _ _ _
  · rw [setTransactionSchedule_active s sched tok now h,
      updateVsyncConfigLocked_fst]
    exact stsGraceWindow_earlyWakeupRequests _ _ _

/-- The transaction decay counter after `setTransactionSchedule` is exactly
the counter after the grace-window phase, whichever branch the sticky check
takes. -/
theorem sts_earlyTransactionFrames (s : State) (sched : TransactionSchedule)
    (tok : Option Token) (now : Int) :
    (setTransactionSchedule s sched tok now).1.earlyTransactionFrames =
      (stsGraceWindow (stsUpdateRequests s sched tok) sched
        now).earlyTransactionFrames := by
  by_cases h : sched = s.transactionSchedule ∨ s.transactionSchedule = .EarlyEnd
  · rw [setTransactionSchedule_sticky s sched tok now h]
  · rw [setTransactionSchedule_active s sched tok now h,
      updateVsyncConfigLocked_fst]

/-- C3 counterexample: running scenario A verbatim (EarlyStart for token 0,
EarlyEnd for token 0, then a commit 2ms later), the state after the commit
has an empty pending set, a clear refresh-rate flag, a zero GPU counter and
a stored `Late` schedule, yet classifies as `Early`, not `Late`: the
`EarlyEnd` step set the grace-window counter to a positive value, which the
commit does not clear. -/
theorem scenarioA_after_commit_is_Early :
    exA3.transactionSchedule = .Late ∧
    exA3.earlyWakeupRequests = ∅ ∧
    exA3.refreshRateChangePending = false ∧
    exA3.earlyGpuFrames = 0 ∧
    exA3.earlyTransactionFrames = MIN_EARLY_TRANSACTION_FRAMES ∧
    getNextVsyncConfigType exA3 = .Early := by decide

/-- C3 amended: scenario A with the corrected ending — `EarlyStart` makes
the classification `Early`; `EarlyEnd` empties the pending set, starts the
grace window and stays `Early`; the commit forces the stored schedule to
`Late` but the classification remains `Early` while the grace-window counter
is positive, and becomes `Late` once display refreshes (observing the commit
at least `MIN_EARLY_TRANSACTION_TIME` after the window start) have
decremented the counter to zero. -/
theorem scenarioA_amended :
    getNextVsyncConfigType exA1 = .Early ∧
    exA2.earlyWakeupRequests = ∅ ∧
    exA2.earlyTransactionFrames = MIN_EARLY_TRANSACTION_FRAMES ∧
    exA2.transactionSchedule = .EarlyEnd ∧
    getNextVsyncConfigType exA2 = .Early ∧
    exA3.transactionSchedule = .Late ∧
    getNextVsyncConfigType exA3 = .Early ∧
    exA4.earlyTransactionFrames = 1 ∧
    getNextVsyncConfigType exA4 = .Early ∧
    exA5.earlyTransactionFrames = 0 ∧
    getNextVsyncConfigType exA5 = .Late := by decide

/-- C4 counterexample: from the initial state (stored schedule `Late`), a
token-less `EarlyStart` is not a state-preserving no-op — it rewrites the
stored schedule to `EarlyStart` and returns a profile rather than no
change. -/
theorem tokenless_EarlyStart_not_noop :
    (setTransactionSchedule exInit .EarlyStart none 5).2 ≠ none ∧
    (setTransactionSchedule exInit .EarlyStart none 5).1.transactionSchedule ≠
      exInit.transactionSchedule := by decide

/-- An `EarlyEnd` whose token is not in the pending set behaves exactly like
a token-less `EarlyEnd`: the erase leaves the set as it was (only the
external `unlinkToDeath` call is skipped), and every later phase reads the
same state. -/
theorem sts_EarlyEnd_absent_token (s : State) (now : Int) (t : Token)
    (ht : t ∉ s.earlyWakeupRequests) :
    setTransactionSchedule s .EarlyEnd (some t) now =
      setTransactionSchedule s .EarlyEnd none now := by
  have h : stsUpdateRequests s .EarlyEnd (some t) =
      stsUpdateRequests s .EarlyEnd none := by
    show { s with earlyWakeupRequests := s.earlyWakeupRequests.erase t } = s
    rw [Finset.erase_eq_of_not_mem ht]
  simp only [setTransactionSchedule, h]

/-- C4 amended: a token-less `EarlyStart`, a token-less `EarlyEnd`, and an
`EarlyEnd` whose token is not pending all leave the pending set unchanged,
and the `EarlyEnd` shapes (with or without a token) still evaluate the
grace-window logic against the set's actual state; but the stored-schedule
stickiness logic still runs, so unless the requested schedule equals the
stored one or the stored one is `EarlyEnd`, the stored schedule is updated
and the reclassified profile is returned — and this holds for the
non-pending-token `EarlyEnd` exactly as for the token-less one, to which it
is equivalent call for call. -/
theorem misuse_requests_amended :
    (∀ (s : State) (now : Int),
      (setTransactionSchedule s .EarlyStart none now).1.earlyWakeupRequests =
        s.earlyWakeupRequests) ∧
    (∀ (s : State) (now : Int),
      (setTransactionSchedule s .EarlyEnd none now).1.earlyWakeupRequests =
        s.earlyWakeupRequests) ∧
    (∀ (s : State) (now : Int) (t : Token), t ∉ s.earlyWakeupRequests →
      (setTransactionSchedule s .EarlyEnd (some t) now).1.earlyWakeupRequests =
        s.earlyWakeupRequests) ∧
    (∀ (s : State) (now : Int),
      (s.transactionSchedule = .EarlyStart ∨
        s.transactionSchedule = .EarlyEnd) →
      setTransactionSchedule s .EarlyStart none now = (s, none)) ∧
    (∀ (s : State) (now : Int),
      ¬(s.transactionSchedule = .EarlyStart ∨
        s.transactionSchedule = .EarlyEnd) →
      (setTransactionSchedule s .EarlyStart none now).1.transactionSchedule =
        .EarlyStart ∧
      (setTransactionSchedule s .EarlyStart none now).2 ≠ none) ∧
    (∀ (s : State) (now : Int),
      (setTransactionSchedule s .EarlyEnd none now).1.earlyTransactionFrames =
        (if s.earlyWakeupRequests = ∅ then MIN_EARLY_TRANSACTION_FRAMES
          else s.earlyTransactionFrames)) ∧
    (∀ (s : State) (now : Int), s.transactionSchedule ≠ .EarlyEnd →
      (setTransactionSchedule s .EarlyEnd none now).1.transactionSchedule =
        .EarlyEnd ∧
      (setTransactionSchedule s .EarlyEnd none now).2 ≠ none) ∧
    (∀ (s : State) (now : Int) (t : Token), t ∉ s.earlyWakeupRequests →
      setTransactionSchedule s .EarlyEnd (some t) now =
        setTransactionSchedule s .EarlyEnd none now) ∧
    (∀ (s : State) (now : Int) (t : Token), t ∉ s.earlyWakeupRequests →
      (setTransactionSchedule s .EarlyEnd (some t) now).1.earlyTransactionFrames =
        (if s.earlyWakeupRequests = ∅ then MIN_EARLY_TRANSACTION_FRAMES
          else s.earlyTransactionFrames)) ∧
    (∀ (s : State) (now : Int) (t : Token), t ∉ s.earlyWakeupRequests →
      s.transactionSchedule ≠ .EarlyEnd →
      (setTransactionSchedule s .EarlyEnd (some t) now).1.transactionSchedule =
        .EarlyEnd ∧
      (setTransactionSchedule s .EarlyEnd (some t) now).2 ≠ none) ∧
    (∀ (s : State) (now : Int) (t : Token), t ∉ s.earlyWakeupRequests →
      s.transactionSchedule = .EarlyEnd →
      (setTransactionSchedule s .EarlyEnd (some t) now).2 = none ∧
      (setTransactionSchedule s .EarlyEnd (some t) now).1.transactionSchedule =
        .EarlyEnd) := by
  refine ⟨?_, ?_, ?_, ?_, ?_, ?_, ?_, ?_, ?_, ?_, ?_⟩
  · intro s now
    rw [sts_earlyWakeupRequests]
    rfl
  · intro s now
    rw [sts_earlyWakeupRequests]
    rfl
  · intro s now t ht
    rw [sts_earlyWakeupRequests]
    exact Finset.erase_eq_of_not_mem ht
  · intro s now h
    have hcond : TransactionSchedule.EarlyStart = s.transactionSchedule ∨
        s.transactionSchedule = .EarlyEnd := by
      rcases h with h | h
      · exact Or.inl h.symm
      · exact Or.inr h
    rw [setTransactionSchedule_sticky s .EarlyStart none now hcond,
      stsGraceWindow_non_EarlyEnd _ _ _ (by decide)]
    rfl
  · intro s now h
    have hcond : ¬(TransactionSchedule.EarlyStart = s.transactionSchedule ∨
        s.transactionSchedule = .EarlyEnd) := by
      rintro (hc | hc)
      · exact h (Or.inl hc.symm)
      · exact h (Or.inr hc)
    rw [setTransactionSchedule_active s .EarlyStart none now hcond]
    exact ⟨rfl, by simp⟩
  · intro s now
    rw [sts_earlyTransactionFrames]
    show (stsGraceWindow s .EarlyEnd now).earlyTransactionFrames = _
    unfold stsGraceWindow
    split_ifs with h1 h2 h2 <;> first | rfl | simp_all
  · intro s now h
    have hcond : ¬(TransactionSchedule.EarlyEnd = s.transactionSchedule ∨
        s.transactionSchedule = .EarlyEnd) := by
      rintro (hc | hc)
      · exact h hc.symm
      · exact h hc
    rw [setTransactionSchedule_active s .EarlyEnd none now hcond]
    exact ⟨rfl, by simp⟩
  · intro s now t ht
    exact sts_EarlyEnd_absent_token s now t ht
  · intro s now t ht
    rw [sts_EarlyEnd_absent_token s now t ht, sts_earlyTransactionFrames]
    show (stsGraceWindow s .EarlyEnd now).earlyTransactionFrames = _
    unfold stsGraceWindow
    split_ifs with h1 h2 h2 <;> first | rfl | simp_all
  · intro s now t ht h
    rw [sts_EarlyEnd_absent_token s now t ht]
    have hcond : ¬(TransactionSchedule.EarlyEnd = s.transactionSchedule ∨
        s.transactionSchedule = .EarlyEnd) := by
      rintro (hc | hc)
      · exact h hc.symm
      · exact h hc
    rw [setTransactionSchedule_active s .EarlyEnd none now hcond]
    exact ⟨rfl, by simp⟩
  · intro s now t ht h
    rw [sts_EarlyEnd_absent_token s now t ht,
      setTransactionSchedule_sticky s .EarlyEnd none now (Or.inr h)]
    refine ⟨rfl, ?_⟩
    rw [stsGraceWindow_transactionSchedule]
    exact h

/-- Witness for the amended C4: an `EarlyEnd` for the non-pending token 9 on
the concrete pending set `{0}` leaves the set unchanged, behaves exactly
like a token-less `EarlyEnd`, and (the stored schedule being `EarlyStart`)
rewrites the stored schedule to `EarlyEnd`; a token-less `EarlyStart` from
the same state is a full no-op. -/
theorem misuse_requests_amended_witness :
    (setTransactionSchedule exA1 .EarlyEnd (some 9) 4).1.earlyWakeupRequests =
      exA1.earlyWakeupRequests ∧
    setTransactionSchedule exA1 .EarlyStart none 4 = (exA1, none) ∧
    setTransactionSchedule exA1 .EarlyEnd (some 9) 4 =
      setTransactionSchedule exA1 .EarlyEnd none 4 ∧
    (setTransactionSchedule exA1 .EarlyEnd (some 9) 4).1.transactionSchedule =
      .EarlyEnd :=
  ⟨misuse_requests_amended.2.2.1 exA1 4 9 (by decide),
    misuse_requests_amended.2.2.2.1 exA1 4 (by exact Or.inl (by decide)),
    misuse_requests_amended.2.2.2.2.2.2.2.1 exA1 4 9 (by decide),
    (misuse_requests_amended.2.2.2.2.2.2.2.2.2.1 exA1 4 9 (by decide)
      (by decide)).1⟩

/-- C5 counterexample: with pending set `{0}` and stored schedule
`EarlyStart`, liveness-lost for token 0 does not have the same effect as
`setTransactionSchedule(EarlyEnd, 0)`: the former leaves the grace-window
counter at 0, keeps the stored schedule `EarlyStart` and classifies `Late`,
while the latter starts the grace window, stores `EarlyEnd` and classifies
`Early`. -/
theorem binderDied_differs_from_EarlyEnd :
    0 ∈ exA1.earlyWakeupRequests ∧
    (binderDied exA1 0).earlyTransactionFrames = 0 ∧
    (setTransactionSchedule exA1 .EarlyEnd (some 0) 0).1.earlyTransactionFrames =
      MIN_EARLY_TRANSACTION_FRAMES ∧
    (binderDied exA1 0).transactionSchedule = .EarlyStart ∧
    (setTransactionSchedule exA1 .EarlyEnd (some 0) 0).1.transactionSchedule =
      .EarlyEnd ∧
    getNextVsyncConfigType (binderDied exA1 0) = .Late ∧
    getNextVsyncConfigType
      ((setTransactionSchedule exA1 .EarlyEnd (some 0) 0).1) = .Early := by
  decide

/-- C5 amended: liveness-lost removes the token from the pending set and
recomputes the stored profile, but unlike an explicit `EarlyEnd` it neither
starts the grace window nor touches the stored schedule, the counters, the
flag or the timestamps; and for a token not in the set it is a no-op except
for recomputing the stored profile. -/
theorem binderDied_amended :
    (∀ (s : State) (t : Token),
      (binderDied s t).earlyWakeupRequests = s.earlyWakeupRequests.erase t ∧
      (binderDied s t).transactionSchedule = s.transactionSchedule ∧
      (binderDied s t).earlyTransactionFrames = s.earlyTransactionFrames ∧
      (binderDied s t).earlyTransactionStartTime =
        s.earlyTransactionStartTime ∧
      (binderDied s t).earlyGpuFrames = s.earlyGpuFrames ∧
      (binderDied s t).lastTransactionCommitTime =
        s.lastTransactionCommitTime ∧
      (binderDied s t).refreshRateChangePending =
        s.refreshRateChangePending ∧
      (binderDied s t).vsyncConfig = getNextVsyncConfig
        { s with earlyWakeupRequests := s.earlyWakeupRequests.erase t }) ∧
    (∀ (s : State) (t : Token), t ∉ s.earlyWakeupRequests →
      binderDied s t = (updateVsyncConfigLocked s).1) := by
  refine ⟨?_, ?_⟩
  · intro s t
    exact ⟨rfl, rfl, rfl, rfl, rfl, rfl, rfl, rfl⟩
  · intro s t ht
    unfold binderDied
    rw [Finset.erase_eq_of_not_mem ht]

/-- Witness for the amended C5: liveness-lost for the non-pending token 5
on the concrete state with pending set `{0}`. -/
theorem binderDied_amended_witness :
    binderDied exA1 5 = (updateVsyncConfigLocked exA1).1 :=
  binderDied_amended.2 exA1 5 (by decide)

/-- Both decay counters are non-negative. -/
def countersNonneg (s : State) : Prop :=
  0 ≤ s.earlyTransactionFrames ∧ 0 ≤ s.earlyGpuFrames

theorem stsGraceWindow_gpu (s : State) (sched : TransactionSchedule)
    (now : Int) :
    (stsGraceWindow s sched now).earlyGpuFrames = s.earlyGpuFrames := by
  unfold stsGraceWindow; split <;> rfl

/-- The GPU decay counter is never touched by `setTransactionSchedule`. -/
theorem sts_earlyGpuFrames (s : State) (sched : TransactionSchedule)
    (tok : Option Token) (now : Int) :
    (setTransactionSchedule s sched tok now).1.earlyGpuFrames =
      s.earlyGpuFrames := by
  by_cases h : sched = s.transactionSchedule ∨ s.transactionSchedule = .EarlyEnd
  · rw [setTransactionSchedule_sticky s sched tok now h,
      stsGraceWindow_earlyGpuFrames, stsUpdateRequests_earlyGpuFrames]
  · rw [setTransactionSchedule_active s sched tok now h,
      updateVsyncConfigLocked_fst]
    show (stsGraceWindow _ _ _).earlyGpuFrames = _
    rw [stsGraceWindow_earlyGpuFrames, stsUpdateRequests_earlyGpuFrames]

theorem odrTransactionStep_frames (s : State) :
    (odrTransactionStep s).1.earlyTransactionFrames =
        s.earlyTransactionFrames ∨
      (0 < s.earlyTransactionFrames ∧
        (odrTransactionStep s).1.earlyTransactionFrames =
          s.earlyTransactionFrames - 1) := by
  unfold odrTransactionStep
  split_ifs with h
  · exact Or.inr ⟨h.2, rfl⟩
  · exact Or.inl rfl

theorem odrTransactionStep_gpu (s : State) :
    (odrTransactionStep s).1.earlyGpuFrames = s.earlyGpuFrames := by
  unfold odrTransactionStep; split <;> rfl

theorem odrGpuStep_frames (s : State) (b : Bool) :
    (odrGpuStep s b).1.earlyTransactionFrames = s.earlyTransactionFrames := by
  unfold odrGpuStep; split_ifs <;> rfl

theorem odrGpuStep_gpu_true (s : State) :
    (odrGpuStep s true).1.earlyGpuFrames = MIN_EARLY_GPU_FRAMES := by
  unfold odrGpuStep; rw [if_pos rfl]

theorem odrGpuStep_gpu_false (s : State) :
    (odrGpuStep s false).1.earlyGpuFrames = s.earlyGpuFrames ∨
      (0 < s.earlyGpuFrames ∧
        (odrGpuStep s false).1.earlyGpuFrames = s.earlyGpuFrames - 1) := by
  unfold odrGpuStep
  rw [if_neg (by simp)]
  split_ifs with h
  · exact Or.inr ⟨h, rfl⟩
  · exact Or.inl rfl

theorem onDisplayRefresh_frames (s : State) (b : Bool) :
    (onDisplayRefresh s b).1.earlyTransactionFrames =
      (odrTransactionStep s).1.earlyTransactionFrames := by
  simp only [onDisplayRefresh]
  split
  · rw [updateVsyncConfigLocked_fst]
    exact odrGpuStep_frames _ _
  · exact odrGpuStep_frames _ _

theorem onDisplayRefresh_gpu (s : State) (b : Bool) :
    (onDisplayRefresh s b).1.earlyGpuFrames =
      (odrGpuStep (odrTransactionStep s).1 b).1.earlyGpuFrames := by
  simp only [onDisplayRefresh]
  split
  · rw [updateVsyncConfigLocked_fst]
  · rfl

theorem onTransactionCommit_frames (s : State) (now : Int) :
    (onTransactionCommit s now).1.earlyTransactionFrames =
        s.earlyTransactionFrames ∧
      (onTransactionCommit s now).1.earlyGpuFrames = s.earlyGpuFrames := by
  simp only [onTransactionCommit]
  split <;> exact ⟨rfl, rfl⟩

theorem onRefreshRateChangeInitiated_frames (s : State) :
    (onRefreshRateChangeInitiated s).1.earlyTransactionFrames =
        s.earlyTransactionFrames ∧
      (onRefreshRateChangeInitiated s).1.earlyGpuFrames =
        s.earlyGpuFrames := by
  simp only [onRefreshRateChangeInitiated]
  split <;> exact ⟨rfl, rfl⟩

theorem onRefreshRateChangeCompleted_frames (s : State) :
    (onRefreshRateChangeCompleted s).1.earlyTransactionFrames =
        s.earlyTransactionFrames ∧
      (onRefreshRateChangeCompleted s).1.earlyGpuFrames =
        s.earlyGpuFrames := by
  simp only [onRefreshRateChangeCompleted]
  split <;> exact ⟨rfl, rfl⟩

/-- Every call preserves non-negativity of both decay counters. -/
theorem countersNonneg_applyOp (s : State) (op : Op)
    (h : countersNonneg s) : countersNonneg (applyOp s op) := by
  obtain ⟨h1, h2⟩ := h
  cases op with
  | setVsyncConfigSet c => exact ⟨h1, h2⟩
  | setTransactionSchedule sched tok now =>
      constructor
      · show 0 ≤ (setTransactionSchedule s sched tok now).1.earlyTransactionFrames
        rw [sts_earlyTransactionFrames]
        unfold stsGraceWindow
        split_ifs
        · show (0 : Int) ≤ MIN_EARLY_TRANSACTION_FRAMES
          decide
        · rw [stsUpdateRequests_earlyTransactionFrames]; exact h1
      · show 0 ≤ (setTransactionSchedule s sched tok now).1.earlyGpuFrames
        rw [sts_earlyGpuFrames]; exact h2
  | onTransactionCommit now =>
      exact ⟨(onTransactionCommit_frames s now).1 ▸ h1,
        (onTransactionCommit_frames s now).2 ▸ h2⟩
  | onRefreshRateChangeInitiated =>
      exact ⟨(onRefreshRateChangeInitiated_frames s).1 ▸ h1,
        (onRefreshRateChangeInitiated_frames s).2 ▸ h2⟩
  | onRefreshRateChangeCompleted =>
      exact ⟨(onRefreshRateChangeCompleted_frames s).1 ▸ h1,
        (onRefreshRateChangeCompleted_frames s).2 ▸ h2⟩
  | onDisplayRefresh b =>
      constructor
      · show 0 ≤ (onDisplayRefresh s b).1.earlyTransactionFrames
        rw [onDisplayRefresh_frames]
        rcases odrTransactionStep_frames s with heq | ⟨hpos, heq⟩ <;>
          rw [heq] <;> omega
      · show 0 ≤ (onDisplayRefresh s b).1.earlyGpuFrames
        rw [onDisplayRefresh_gpu]
        cases b with
        | true => rw [odrGpuStep_gpu_true]; decide
        | false =>
            rcases odrGpuStep_gpu_false (odrTransactionStep s).1 with
              heq | ⟨hpos, heq⟩ <;> rw [heq] <;>
              rw [odrTransactionStep_gpu] at * <;> omega
  | binderDied who => exact ⟨h1, h2⟩

theorem countersNonneg_run (s : State) (ops : List Op)
    (h : countersNonneg s) : countersNonneg (run s ops) := by
  induction ops generalizing s with
  | nil => exact h
  | cons op ops ih => exact ih _ (countersNonneg_applyOp s op h)

/-- C6: on every reachable state both decay counters are non-negative;
`onDisplayRefresh` changes each counter by at most a decrement (or, for the
GPU counter on a GPU-composited frame, the reset); and no call other than
the corresponding reset (`EarlyEnd` for the transaction counter,
`onDisplayRefresh true` for the GPU counter) ever increases a counter. -/
theorem decay_counters_invariant :
    (∀ s : State, Reachable s →
      0 ≤ s.earlyTransactionFrames ∧ 0 ≤ s.earlyGpuFrames) ∧
    (∀ (s : State) (b : Bool),
      ((onDisplayRefresh s b).1.earlyTransactionFrames =
          s.earlyTransactionFrames ∨
        (0 < s.earlyTransactionFrames ∧
          (onDisplayRefresh s b).1.earlyTransactionFrames =
            s.earlyTransactionFrames - 1)) ∧
      ((onDisplayRefresh s true).1.earlyGpuFrames = MIN_EARLY_GPU_FRAMES) ∧
      ((onDisplayRefresh s false).1.earlyGpuFrames = s.earlyGpuFrames ∨
        (0 < s.earlyGpuFrames ∧
          (onDisplayRefresh s false).1.earlyGpuFrames =
            s.earlyGpuFrames - 1))) ∧
    (∀ (s : State) (op : Op),
      (∀ (tok : Option Token) (now : Int),
        op ≠ .setTransactionSchedule .EarlyEnd tok now) →
      (applyOp s op).earlyTransactionFrames ≤ s.earlyTransactionFrames) ∧
    (∀ (s : State) (op : Op), op ≠ .onDisplayRefresh true →
      (applyOp s op).earlyGpuFrames ≤ s.earlyGpuFrames) := by
  refine ⟨?_, ?_, ?_, ?_⟩
  · rintro s ⟨config, c0, ops, rfl⟩
    exact countersNonneg_run _ ops ⟨le_refl 0, le_refl 0⟩
  · intro s b
    refine ⟨?_, ?_, ?_⟩
    · rw [onDisplayRefresh_frames]
      exact odrTransactionStep_frames s
    · rw [onDisplayRefresh_gpu, odrGpuStep_gpu_true]
    · rw [onDisplayRefresh_gpu]
      rcases odrGpuStep_gpu_false (odrTransactionStep s).1 with heq | ⟨hpos, heq⟩ <;>
        rw [heq, odrTransactionStep_gpu]
      · exact Or.inl rfl
      · rw [odrTransactionStep_gpu] at hpos
        exact Or.inr ⟨hpos, rfl⟩
  · intro s op hop
    cases op with
    | setVsyncConfigSet c => exact le_refl _
    | setTransactionSchedule sched tok now =>
        show (setTransactionSchedule s sched tok now).1.earlyTransactionFrames ≤ _
        rw [sts_earlyTransactionFrames]
        cases sched with
        | EarlyEnd => exact absurd rfl (hop tok now)
        | Late =>
            rw [stsGraceWindow_non_EarlyEnd _ _ _ (by decide),
              stsUpdateRequests_earlyTransactionFrames]
        | EarlyStart =>
            rw [stsGraceWindow_non_EarlyEnd _ _ _ (by decide),
              stsUpdateRequests_earlyTransactionFrames]
    | onTransactionCommit now =>
        exact le_of_eq (onTransactionCommit_frames s now).1
    | onRefreshRateChangeInitiated =>
        exact le_of_eq (onRefreshRateChangeInitiated_frames s).1
    | onRefreshRateChangeCompleted =>
        exact le_of_eq (onRefreshRateChangeCompleted_frames s).1
    | onDisplayRefresh b =>
        show (onDisplayRefresh s b).1.earlyTransactionFrames ≤ _
        rw [onDisplayRefresh_frames]
        rcases odrTransactionStep_frames s with heq | ⟨hpos, heq⟩ <;>
          rw [heq] <;> omega
    | binderDied who => exact le_refl _
  · intro s op hop
    cases op with
    | setVsyncConfigSet c => exact le_refl _
    | setTransactionSchedule sched tok now =>
        show (setTransactionSchedule s sched tok now).1.earlyGpuFrames ≤ _
        rw [sts_earlyGpuFrames]
    | onTransactionCommit now =>
        exact le_of_eq (onTransactionCommit_frames s now).2
    | onRefreshRateChangeInitiated =>
        exact le_of_eq (onRefreshRateChangeInitiated_frames s).2
    | onRefreshRateChangeCompleted =>
        exact le_of_eq (onRefreshRateChangeCompleted_frames s).2
    | onDisplayRefresh b =>
        cases b with
        | true => exact absurd rfl hop
        | false =>
            show (onDisplayRefresh s false).1.earlyGpuFrames ≤ _
            rw [onDisplayRefresh_gpu]
            rcases odrGpuStep_gpu_false (odrTransactionStep s).1 with
              heq | ⟨hpos, heq⟩ <;> rw [heq, odrTransactionStep_gpu] <;> omega
    | binderDied who => exact le_refl _

/-- Witness for C6 at a concrete reachable state, scenario A after the
commit, and a concrete non-reset call. -/
theorem decay_counters_invariant_witness :
    (0 ≤ exA3.earlyTransactionFrames ∧ 0 ≤ exA3.earlyGpuFrames) ∧
    (applyOp exA3 (.onTransactionCommit 5)).earlyTransactionFrames ≤
      exA3.earlyTransactionFrames :=
  ⟨decay_counters_invariant.1 exA3
      ⟨exCfg, 0,
        [.setTransactionSchedule .EarlyStart (some 0) 0,
          .setTransactionSchedule .EarlyEnd (some 0) 0,
          .onTransactionCommit 2000000], rfl⟩,
    decay_counters_invariant.2.2.1 exA3 (.onTransactionCommit 5)
      (fun tok now h => Op.noConfusion h)⟩

/-- A call carrying an `EarlyStart` or `EarlyEnd` request. -/
def isEarlyRequestOp : Op → Bool
  | .setTransactionSchedule .EarlyStart _ _ => true
  | .setTransactionSchedule .EarlyEnd _ _ => true
  | _ => false

theorem odrTransactionStep_schedule (s : State) :
    (odrTransactionStep s).1.transactionSchedule = s.transactionSchedule := by
  unfold odrTransactionStep; split <;> rfl

theorem odrGpuStep_schedule (s : State) (b : Bool) :
    (odrGpuStep s b).1.transactionSchedule = s.transactionSchedule := by
  unfold odrGpuStep; split_ifs <;> rfl

theorem onDisplayRefresh_schedule (s : State) (b : Bool) :
    (onDisplayRefresh s b).1.transactionSchedule = s.transactionSchedule := by
  simp only [onDisplayRefresh]
  split
  · rw [updateVsyncConfigLocked_fst]
    show (odrGpuStep (odrTransactionStep s).1 b).1.transactionSchedule = _
    rw [odrGpuStep_schedule, odrTransactionStep_schedule]
  · show (odrGpuStep (odrTransactionStep s).1 b).1.transactionSchedule = _
    rw [odrGpuStep_schedule, odrTransactionStep_schedule]

theorem onRefreshRateChangeInitiated_schedule (s : State) :
    (onRefreshRateChangeInitiated s).1.transactionSchedule =
      s.transactionSchedule := by
  simp only [onRefreshRateChangeInitiated]
  split <;> rfl

theorem onRefreshRateChangeCompleted_schedule (s : State) :
    (onRefreshRateChangeCompleted s).1.transactionSchedule =
      s.transactionSchedule := by
  simp only [onRefreshRateChangeCompleted]
  split <;> rfl

/-- After a commit the stored schedule is always `Late`. -/
theorem onTransactionCommit_schedule (s : State) (now : Int) :
    (onTransactionCommit s now).1.transactionSchedule = .Late := by
  simp only [onTransactionCommit]
  split_ifs with h
  · exact h
  · rfl

/-- A commit on a stored `Late` schedule only stamps the timestamp. -/
theorem onTransactionCommit_noop (s : State) (now : Int)
    (h : s.transactionSchedule = .Late) :
    onTransactionCommit s now =
      ({ s with lastTransactionCommitTime := now }, none) := by
  simp only [onTransactionCommit]
  rw [if_pos h]

/-- Any call that carries no `EarlyStart`/`EarlyEnd` request keeps a stored
`Late` schedule `Late`. -/
theorem applyOp_schedule_Late (s : State) (op : Op)
    (h : s.transactionSchedule = .Late) (hop : isEarlyRequestOp op = false) :
    (applyOp s op).transactionSchedule = .Late := by
  cases op with
  | setVsyncConfigSet c => exact h
  | setTransactionSchedule sched tok now =>
      cases sched with
      | Late =>
          show (setTransactionSchedule s .Late tok now).1.transactionSchedule =
            .Late
          rw [setTransactionSchedule_sticky s .Late tok now (Or.inl h.symm),
            stsGraceWindow_transactionSchedule,
            stsUpdateRequests_transactionSchedule]
          exact h
      | EarlyStart => simp [isEarlyRequestOp] at hop
      | EarlyEnd => simp [isEarlyRequestOp] at hop
  | onTransactionCommit now => exact onTransactionCommit_schedule s now
  | onRefreshRateChangeInitiated =>
      rw [show (applyOp s .onRefreshRateChangeInitiated) =
          (onRefreshRateChangeInitiated s).1 from rfl,
        onRefreshRateChangeInitiated_schedule]
      exact h
  | onRefreshRateChangeCompleted =>
      rw [show (applyOp s .onRefreshRateChangeCompleted) =
          (onRefreshRateChangeCompleted s).1 from rfl,
        onRefreshRateChangeCompleted_schedule]
      exact h
  | onDisplayRefresh b =>
      rw [show (applyOp s (.onDisplayRefresh b)) =
          (onDisplayRefresh s b).1 from rfl, onDisplayRefresh_schedule]
      exact h
  | binderDied who => exact h

/-- A stored `Late` schedule survives any sequence of calls with no
`EarlyStart`/`EarlyEnd` request. -/
theorem run_schedule_Late (s : State) (ops : List Op)
    (h : s.transactionSchedule = .Late)
    (hops : ∀ op ∈ ops, isEarlyRequestOp op = false) :
    (run s ops).transactionSchedule = .Late := by
  induction ops generalizing s with
  | nil => exact h
  | cons op rest ih =>
      exact ih _ (applyOp_schedule_Late s op h (hops op (List.mem_cons_self op rest)))
        (fun d hd => hops d (List.mem_cons_of_mem op hd))

/-- C7 counterexample: commit, then an intervening `EarlyStart` request (not
an `EarlyEnd`), then a second commit — the second commit returns a freshly
classified profile and rewrites the stored schedule, so the two commits are
not idempotent even though no `EarlyEnd` intervened. -/
theorem onTransactionCommit_not_idempotent :
    exCommitMid.transactionSchedule = .EarlyStart ∧
    (onTransactionCommit exCommitMid 2).2 ≠ none ∧
    (onTransactionCommit exCommitMid 2).1.transactionSchedule ≠
      exCommitMid.transactionSchedule := by decide

/-- C7 amended: a commit stamps `lastTransactionCommitTime` to now; on a
stored `Late` schedule it changes nothing else and returns no change;
otherwise it forces the stored schedule to `Late` and returns the
reclassified profile; among all calls only a commit can clear a stored
`EarlyEnd`; and two commits are idempotent provided no intervening call
carries an `EarlyStart` or `EarlyEnd` request (not merely no `EarlyEnd`):
the second commit then returns no change and leaves the stored schedule and
the classification unchanged. -/
theorem onTransactionCommit_amended :
    (∀ (s : State) (now : Int),
      (onTransactionCommit s now).1.lastTransactionCommitTime = now) ∧
    (∀ (s : State) (now : Int), s.transactionSchedule = .Late →
      onTransactionCommit s now =
        ({ s with lastTransactionCommitTime := now }, none)) ∧
    (∀ (s : State) (now : Int), s.transactionSchedule ≠ .Late →
      (onTransactionCommit s now).1.transactionSchedule = .Late ∧
      (onTransactionCommit s now).2 =
        some ((onTransactionCommit s now).1.vsyncConfig)) ∧
    (∀ (s : State) (op : Op), s.transactionSchedule = .EarlyEnd →
      (∀ now : Int, op ≠ .onTransactionCommit now) →
      (applyOp s op).transactionSchedule = .EarlyEnd) ∧
    (∀ (s : State) (now1 : Int) (ops : List Op) (now2 : Int),
      (∀ op ∈ ops, isEarlyRequestOp op = false) →
      (onTransactionCommit (run (onTransactionCommit s now1).1 ops) now2).2 =
        none ∧
      (onTransactionCommit (run (onTransactionCommit s now1).1 ops)
          now2).1.transactionSchedule =
        (run (onTransactionCommit s now1).1 ops).transactionSchedule ∧
      getNextVsyncConfigType
        (onTransactionCommit (run (onTransactionCommit s now1).1 ops)
          now2).1 =
        getNextVsyncConfigType (run (onTransactionCommit s now1).1 ops)) := by
  refine ⟨?_, ?_, ?_, ?_, ?_⟩
  · intro s now
    simp only [onTransactionCommit]
    split <;> rfl
  · intro s now h
    exact onTransactionCommit_noop s now h
  · intro s now h
    simp only [onTransactionCommit]
    rw [if_neg h]
    exact ⟨rfl, rfl⟩
  · intro s op h hop
    cases op with
    | setVsyncConfigSet c => exact h
    | setTransactionSchedule sched tok now =>
        exact sts_preserves_EarlyEnd s sched tok now h
    | onTransactionCommit now => exact absurd rfl (hop now)
    | onRefreshRateChangeInitiated =>
        rw [show (applyOp s .onRefreshRateChangeInitiated) =
            (onRefreshRateChangeInitiated s).1 from rfl,
          onRefreshRateChangeInitiated_schedule]
        exact h
    | onRefreshRateChangeCompleted =>
        rw [show (applyOp s .onRefreshRateChangeCompleted) =
            (onRefreshRateChangeCompleted s).1 from rfl,
          onRefreshRateChangeCompleted_schedule]
        exact h
    | onDisplayRefresh b =>
        rw [show (applyOp s (.onDisplayRefresh b)) =
            (onDisplayRefresh s b).1 from rfl, onDisplayRefresh_schedule]
        exact h
    | binderDied who => exact h
  · intro s now1 ops now2 hops
    have hmid : (run (onTransactionCommit s now1).1 ops).transactionSchedule =
        .Late :=
      run_schedule_Late _ ops (onTransactionCommit_schedule s now1) hops
    rw [onTransactionCommit_noop _ now2 hmid]
    exact ⟨rfl, hmid.symm ▸ rfl,
      getNextVsyncConfigType_congr rfl rfl rfl rfl rfl⟩

/-- Witness for the amended C7: two commits with an intervening refresh-rate
initiation and a display refresh (neither an early request) — the second
commit is a no-op on schedule and classification. -/
theorem onTransactionCommit_amended_witness :
    (onTransactionCommit
      (run (onTransactionCommit exInit 0).1
        [.onRefreshRateChangeInitiated, .onDisplayRefresh false]) 7).2 =
      none :=
  (onTransactionCommit_amended.2.2.2.2 exInit 0
    [.onRefreshRateChangeInitiated, .onDisplayRefresh false] 7 (by decide)).1

/-- C8: liveness-lost never touches the grace-window fields
(`earlyTransactionFrames`, `earlyTransactionStartTime`); and in scenario C —
`EarlyStart` for token 0 from the initial state, then liveness-lost for
token 0 with no `EarlyEnd` — the pending set becomes empty, the grace window
has not started, and the classification reverts to `Late` (no remaining
signal). -/
theorem scenarioC_liveness_lost :
    (∀ (s : State) (t : Token),
      (binderDied s t).earlyTransactionFrames = s.earlyTransactionFrames ∧
      (binderDied s t).earlyTransactionStartTime =
        s.earlyTransactionStartTime) ∧
    ((binderDied exA1 0).earlyWakeupRequests = ∅ ∧
      (binderDied exA1 0).earlyTransactionFrames = 0 ∧
      (binderDied exA1 0).earlyTransactionStartTime = 0 ∧
      getNextVsyncConfigType (binderDied exA1 0) = .Late) :=
  ⟨fun s t => ⟨rfl, rfl⟩, by decide⟩

/-- C9: an `EarlyStart` with a valid token while the stored schedule is
already `EarlyStart` still inserts the token into the pending set, but
returns no change and skips the profile recomputation — the whole call is
exactly the set insertion; consequently, in the concrete run where a
token-less `EarlyStart` first stored the `Late` profile, the snapshot
`getVsyncConfig` afterwards differs from the profile the classification
would select. -/
theorem redundant_EarlyStart_stale_profile :
    (∀ (s : State) (t : Token) (now : Int),
      s.transactionSchedule = .EarlyStart →
      setTransactionSchedule s .EarlyStart (some t) now =
        ({ s with earlyWakeupRequests := insert t s.earlyWakeupRequests },
          none)) ∧
    ((setTransactionSchedule exStartNoToken .EarlyStart (some 0) 1).2 =
        none ∧
      0 ∈ exStartStale.earlyWakeupRequests ∧
      getVsyncConfig exStartStale ≠ getNextVsyncConfig exStartStale) := by
  constructor
  · intro s t now h
    rw [setTransactionSchedule_sticky s .EarlyStart (some t) now
        (Or.inl h.symm),
      stsGraceWindow_non_EarlyEnd _ _ _ (by decide)]
    rfl
  · decide

/-- Witness for C9 at the concrete state whose stored schedule is
`EarlyStart` after a token-less `EarlyStart`. -/
theorem redundant_EarlyStart_stale_profile_witness :
    setTransactionSchedule exStartNoToken .EarlyStart (some 4) 2 =
      ({ exStartNoToken with
          earlyWakeupRequests := insert 4 exStartNoToken.earlyWakeupRequests },
        none) :=
  redundant_EarlyStart_stale_profile.1 exStartNoToken 4 2 (by decide)

/-- C10 counterexample: transcribing the lock and write structure of the
source, `onTransactionCommit` writes the stored schedule, the two
refresh-rate operations write the pending flag, and `onDisplayRefresh`
writes both decay counters while the mutex is not held — exactly the three
mutations the claim asserts are performed under the lock. -/
theorem unlocked_mutations_exist :
    (writesOutsideLock onTransactionCommitTrace 0).filter
        (fun f => !f.isTimestamp) = [.transactionSchedule] ∧
    writesOutsideLock onRefreshRateChangeInitiatedTrace 0 =
      [.refreshRateChangePending] ∧
    writesOutsideLock onRefreshRateChangeCompletedTrace 0 =
      [.refreshRateChangePending] ∧
    writesOutsideLock onDisplayRefreshTrace 0 =
      [.earlyTransactionFrames, .earlyGpuFrames] := by decide

/-- C10 amended: the mutations in `setVsyncConfigSet`,
`setTransactionSchedule` and `binderDied` all happen while the lock is held,
but `onTransactionCommit` writes the stored schedule (besides its
timestamp), `onRefreshRateChangeInitiated`/`Completed` write the
refresh-rate flag, and `onDisplayRefresh` writes the decay counters before
taking the lock; in those operations only the final profile recomputation
(`updateVsyncConfig`) runs under the lock. -/
theorem lock_discipline_amended :
    writesOutsideLock setVsyncConfigSetTrace 0 = [] ∧
    writesOutsideLock setTransactionScheduleTrace 0 = [] ∧
    writesOutsideLock binderDiedTrace 0 = [] ∧
    writesOutsideLock onTransactionCommitTrace 0 =
      [.lastTransactionCommitTime, .transactionSchedule] ∧
    writesOutsideLock onRefreshRateChangeInitiatedTrace 0 =
      [.refreshRateChangePending] ∧
    writesOutsideLock onRefreshRateChangeCompletedTrace 0 =
      [.refreshRateChangePending] ∧
    writesOutsideLock onDisplayRefreshTrace 0 =
      [.earlyTransactionFrames, .earlyGpuFrames] := by decide

end VsyncModulator
